import Mathlib

/-!
# Verification of the `fr_2ddoc_parser` 2D-DOC decoder

Shallow embedding of the Python sources of `IA-Generative/2ddoc-parser`:

* `model/models.py`  — `Header`, `SignatureBlock`, `Decoded2DDoc`, `Decoded2DDoc.verify`
* `registry/registry.py` — `TypeRegistry`, `register`, `get_handler`
* `type/doc07_carte_identite.py` — `AdresseIdentite`, `CarteIdentite`, the `"07"` handler
* `type/doc28_avis_impots.py` — its module-level `@register("28")` decorator call
* `api.py` — `_ensure_handlers_loaded`, `decode_2d_doc`

Modules of the repository that are not part of the provided sources
(`parser/parser.py`, `parser/helper.py`, `crypto/crypto.py`,
`crypto/key_resolver.py`, `type/base.py`) are modelled from the
specification; each such definition says so in its doc comment.

Python exceptions are embedded as `Except PyErr`; mutation of the
`Decoded2DDoc` aggregate is embedded as explicit state passing (each
mutating step returns the updated record).
-/

/-- Embedding of the Python exceptions the pipeline can raise. -/
inductive PyErr where
  | typeError (msg : String)
  | valueError (msg : String)
  | keyNotFound (ca_id cert_id : String)
  | unsupportedAlgorithm (len : Nat)
  | malformedHeader (msg : String)
  | malformedField (msg : String)
  | malformedSignature (msg : String)
  | validationError (msg : String)
  deriving DecidableEq

/-- Calendar date as produced by the `to_date_ddmmyyyy` helper
(`datetime.date` carrying day, month, year). -/
structure SimpleDate where
  day : Nat
  month : Nat
  year : Nat
  deriving DecidableEq

/-- `models.Header` — frozen dataclass of `model/models.py`.
Header dates decoded from the hex day counters are kept as day numbers
(`Option Nat`); the standard's unset sentinel decodes to `none`. -/
structure Header where
  raw : String
  marker : String
  version : Nat
  ca_id : String
  cert_id : String
  issue_date : Option Nat
  signature_date : Option Nat
  doc_type : String
  perimeter : String
  country : String
  header_len : Nat := 0
  deriving DecidableEq

/-- `models.SignatureBlock`. `raw` is the Base32-decoded signature as a
byte list (`None` in Python becomes `none`). -/
structure SignatureBlock where
  present : Bool
  b32 : Option String := none
  raw : Option (List Nat) := none
  alg_hint : Option String := none
  deriving DecidableEq

/-- Python `dict[str, str]` with insertion order: an association list
whose keys are unique. -/
abbrev Fields := List (String × String)

/-- `d.get(k)` on an association list: first binding of the key. -/
def aget {α : Type} : List (String × α) → String → Option α
  | [], _ => none
  | (k, v) :: rest, q => if k = q then some v else aget rest q

/-- `d.get(k, dflt)`. -/
def agetD {α : Type} (l : List (String × α)) (q : String) (dflt : α) : α :=
  (aget l q).getD dflt

/-- `d[k] = v` on an association list: replace the binding if the key is
present, append otherwise. -/
def ainsert {α : Type} (k : String) (v : α) : List (String × α) → List (String × α)
  | [] => [(k, v)]
  | (k2, v2) :: rest => if k2 = k then (k, v) :: rest else (k2, v2) :: ainsert k v rest

/-- Python `code.upper()` restricted to its effect on the ASCII range
(document-type codes are ASCII): per-character upper-casing. -/
def strUpper (s : String) : String := ⟨s.data.map Char.toUpper⟩

/-- Python `code.lower()` on the ASCII range. -/
def strLower (s : String) : String := ⟨s.data.map Char.toLower⟩

/-- Modelled from the spec: `type/base.py` is absent from the provided
sources; `GenericDoc` is the GenericView "retaining
type/perimeter/country/fields uninterpreted". -/
structure GenericDoc where
  doc_type : String
  perimeter : String
  country : String
  fields : Fields
  deriving DecidableEq

/-- `doc07_carte_identite.AdresseIdentite` — all fields optional. -/
structure AdresseIdentite where
  ligne_2 : Option String := none
  ligne_3 : Option String := none
  voie : Option String := none
  lieu_dit : Option String := none
  code_postal : Option String := none
  commune : Option String := none
  pays : Option String := none
  deriving DecidableEq

/-- `doc07_carte_identite.CarteIdentite` — pydantic model for document
type 07. Fields annotated `str` in the source hold `String`; fields
annotated `Optional[...]` hold `Option`. -/
structure CarteIdentite where
  doc_type : String
  liste_prenoms : String
  prenom : Option String := none
  nom_patronymique : String
  nom_usage : Option String := none
  type_piece_identite : String
  numero_document : String
  nationalite : String
  genre : String
  date_naissance : Option SimpleDate := none
  lieu_naissance : Option String := none
  pays_naissance : String
  mrz : Option String := none
  date_debut_validite : Option SimpleDate := none
  date_fin_validite : Option SimpleDate := none
  adresse : AdresseIdentite
  extras : Fields := []
  deriving DecidableEq

/-- The possible values of the aggregate's `typed` slot
(`Optional[BaseModel]` in Python): the generic fallback view or the
typed model of document type 07 (the type-28 model is never constructed
because its module fails to import, see `importTypeModule`). -/
inductive TypedDoc where
  | generic (g : GenericDoc)
  | carteIdentite (c : CarteIdentite)
  deriving DecidableEq

/-- The two-valued validity slot of the aggregate: `models.Decoded2DDoc`
declares `is_valid: bool = False`. -/
abbrev Validity := Bool

/-- `models.Decoded2DDoc` — the aggregate returned by decode. -/
structure Decoded2DDoc where
  header : Header
  sign_payload : List Nat
  fields : Fields := []
  typed : Option TypedDoc := none
  signature : SignatureBlock := { present := false }
  is_valid : Validity := false
  ants_type : Option String := none
  deriving DecidableEq

/-- Modelled from the spec: `crypto/key_resolver.py` is absent from the
provided sources. A public key is kept abstract as the ECDSA acceptance
predicate "hash the Signed Payload with the digest tied to the inferred
curve and check the two integer components against the key": a Boolean
function of (payload bytes, signature bytes). -/
structure PublicKey where
  check : List Nat → List Nat → Bool

/-- Modelled from the spec: the Key Resolver interface
`resolve(ca_id, cert_id) -> PublicKey`, which "fails with KeyNotFound". -/
structure KeyResolver where
  resolve : String → String → Except PyErr PublicKey

/-- Modelled from the spec: `crypto/key_resolver.py::local_key_resolver`
resolves against a local key store whose contents are unspecified
("offline key store" is a routine situation); modelled as the resolver
whose store has no matching entry, failing with `KeyNotFound`. -/
def local_key_resolver : KeyResolver :=
  ⟨fun ca cert => .error (.keyNotFound ca cert)⟩

/-- Modelled from the spec: `crypto/crypto.py::verify_signature`.
Algorithm inference by decoded byte length: 64, 96 and 132 bytes select
the three supported curves; "any other length fails UnsupportedAlgorithm".
On a supported length the key's acceptance predicate decides the result. -/
def verify_signature (payload : List Nat) (sig : List Nat) (pub : PublicKey) :
    Except PyErr Bool :=
  if sig.length = 64 ∨ sig.length = 96 ∨ sig.length = 132 then
    .ok (pub.check payload sig)
  else
    .error (.unsupportedAlgorithm sig.length)

/-- `models.Decoded2DDoc.verify` — raises `ValueError` when the signature
block is absent or its raw bytes are falsy (Python
`if not self.signature.present or not self.signature.raw`), otherwise
resolves the key, verifies, and writes `is_valid`. Mutation of `self`
is embedded as returning the updated record. -/
def Decoded2DDoc.verify (d : Decoded2DDoc) (key_resolver : KeyResolver) :
    Except PyErr Decoded2DDoc :=
  match d.signature.present, d.signature.raw with
  | true, some raw =>
    if raw.isEmpty then
      .error (.valueError "Pas de signature présente dans ce 2D-DOC.")
    else do
      let pub ← key_resolver.resolve d.header.ca_id d.header.cert_id
      let ok ← verify_signature d.sign_payload raw pub
      .ok { d with is_valid := ok }
  | _, _ => .error (.valueError "Pas de signature présente dans ce 2D-DOC.")

/-- Decimal digit value, `none` for a non-digit. -/
def decDigit (c : Char) : Option Nat :=
  if 48 ≤ c.toNat ∧ c.toNat ≤ 57 then some (c.toNat - 48) else none

/-- Parse a non-empty all-digit character list as a decimal number. -/
def decNat (cs : List Char) : Option Nat :=
  if cs.isEmpty then none
  else cs.foldl (fun acc c => do
    let a ← acc
    let v ← decDigit c
    pure (a * 10 + v)) (some 0)

/-- Modelled from the spec: `parser/helper.py::to_date_ddmmyyyy` is absent
from the provided sources; it converts an optional `ddmmyyyy` digit string
into an optional date, absent or non-conforming input giving `None`. -/
def to_date_ddmmyyyy : Option String → Option SimpleDate
  | none => none
  | some s =>
    let cs := s.data
    if cs.length = 8 then
      match decNat (cs.take 2), decNat ((cs.drop 2).take 2), decNat (cs.drop 4) with
      | some d, some m, some y => some ⟨d, m, y⟩
      | _, _, _ => none
    else none

/-- Python `str.strip()`: drop whitespace from both ends. -/
def pyStrip (s : String) : String :=
  ⟨((s.data.dropWhile Char.isWhitespace).reverse.dropWhile Char.isWhitespace).reverse⟩

/-- The field ids `CarteIdentite.from_decoded` maps explicitly; every
other id goes to `extras`. -/
def knownKeys07 : List String :=
  ["60", "61", "62", "63", "65", "66", "67", "68",
   "69", "6A", "6C", "6F", "6N", "6O",
   "6S", "6T", "6U", "6V", "6W", "6X", "6Y"]

/-- `CarteIdentite.validate` — the mandatory-field rules of document
type 07: empty `liste_prenoms` (60), `nationalite` (67) or `genre` (68)
raises `ValueError`. -/
def CarteIdentite.validate (c : CarteIdentite) : Except PyErr Unit :=
  if c.liste_prenoms = "" then
    .error (.valueError "La liste des prénoms (60) est obligatoire.")
  else if c.nationalite = "" then
    .error (.valueError "La nationalité (67) est obligatoire.")
  else if c.genre = "" then
    .error (.valueError "Le genre (68) est obligatoire.")
  else .ok ()

/-- `CarteIdentite.from_decoded` — builds the pydantic model from the
decoded fields and runs `validate`. Pydantic's type validation of the
constructor call is part of the embedding: the `Literal["07"]` annotation
on `doc_type` and the non-optional `str` annotations on
`nom_patronymique` (62) and `pays_naissance` (6C), which the source
passes as possibly-`None` `f.get` results, reject a missing value with a
validation error. -/
def CarteIdentite.from_decoded (d : Decoded2DDoc) : Except PyErr CarteIdentite := do
  let f := d.fields
  let adresse : AdresseIdentite :=
    { ligne_2 := aget f "6S", ligne_3 := aget f "6T", voie := aget f "6U",
      lieu_dit := aget f "6V", code_postal := aget f "6W",
      commune := aget f "6X", pays := aget f "6Y" }
  let extras := f.filter (fun kv => ¬ knownKeys07.contains kv.1)
  if d.header.doc_type ≠ "07" then
    throw (.validationError "doc_type: input should be 07")
  let nom62 ← match aget f "62" with
    | some s => pure s
    | none => throw (.validationError "nom_patronymique: input should be a valid string")
  let pays6C ← match aget f "6C" with
    | some s => pure s
    | none => throw (.validationError "pays_naissance: input should be a valid string")
  let obj : CarteIdentite :=
    { doc_type := d.header.doc_type,
      liste_prenoms := pyStrip (agetD f "60" ""),
      prenom := aget f "61",
      nom_patronymique := nom62,
      nom_usage := aget f "63",
      type_piece_identite := pyStrip (agetD f "65" ""),
      numero_document := pyStrip (agetD f "66" ""),
      nationalite := pyStrip (agetD f "67" ""),
      genre := pyStrip (agetD f "68" ""),
      date_naissance := to_date_ddmmyyyy (aget f "69"),
      lieu_naissance := aget f "6A",
      pays_naissance := pays6C,
      mrz := aget f "6F",
      date_debut_validite := to_date_ddmmyyyy (aget f "6N"),
      date_fin_validite := to_date_ddmmyyyy (aget f "6O"),
      adresse := adresse,
      extras := extras }
  CarteIdentite.validate obj
  pure obj

/-- A type handler (`registry.TypeHandler`): `Decoded2DDoc -> typed view`,
possibly raising (embedded as `Except`). -/
abbrev TypeHandler := Decoded2DDoc → Except PyErr TypedDoc

/-- `doc07_carte_identite._handle_07`, the function registered for
code "07". -/
def handle_07 : TypeHandler :=
  fun d => (CarteIdentite.from_decoded d).map TypedDoc.carteIdentite

/-- `registry.TypeRegistry` — dict from upper-cased code to
(handler, display name). The process-wide `_registry` is embedded by
passing the registry value explicitly. -/
structure TypeRegistry where
  handlers : List (String × TypeHandler × String)

/-- `TypeRegistry.register` — `self._handlers[code.upper()] = [handler, name]`. -/
def TypeRegistry.register (reg : TypeRegistry) (code : String)
    (handler : TypeHandler) (name : String) : TypeRegistry :=
  ⟨ainsert (strUpper code) (handler, name) reg.handlers⟩

/-- `TypeRegistry.get` — `self._handlers.get(code.upper())`. -/
def TypeRegistry.get (reg : TypeRegistry) (code : String) :
    Option (TypeHandler × String) :=
  aget reg.handlers (strUpper code)

/-- `registry.get_handler` on an explicit registry value. -/
def get_handler (reg : TypeRegistry) (code : String) :
    Option (TypeHandler × String) :=
  reg.get code

/-- Importing one module of the `fr_2ddoc_parser.type` package, as a state
transformer on the registry (the decorators run at import time):

* `base` defines `GenericDoc` and registers nothing;
* `doc07_carte_identite` evaluates `@register("07", "carte_identite")`;
* `doc28_avis_impots` evaluates `@register("28")` — but
  `registry.register(code, name)` requires the positional `name`
  argument, so this call raises `TypeError` and the import fails. -/
def importTypeModule (m : String) (reg : TypeRegistry) : Except PyErr TypeRegistry :=
  if m = "base" then .ok reg
  else if m = "doc07_carte_identite" then
    .ok (reg.register "07" handle_07 "carte_identite")
  else if m = "doc28_avis_impots" then
    .error (.typeError "register() missing 1 required positional argument: name")
  else .ok reg

/-- The modules `pkgutil.iter_modules` finds in `fr_2ddoc_parser/type/`. -/
def typeModules : List String :=
  ["base", "doc07_carte_identite", "doc28_avis_impots"]

/-- `api._ensure_handlers_loaded` — imports every module of the type
package in order, threading the registry; an import error propagates
(and the `_handlers_loaded` flag is never set, so every call re-runs
this same computation). -/
def ensureHandlersLoaded : Except PyErr TypeRegistry :=
  typeModules.foldlM (fun reg m => importTypeModule m reg) ⟨[]⟩

/-- The Group Separator `"\x1d"` of `model/models.py`. -/
def GSchar : Char := Char.ofNat 29

/-- The Unit Separator `"\x1f"` of `model/models.py`. -/
def USchar : Char := Char.ofNat 31

/-- Hexadecimal digit value (upper-case alphabet), `none` otherwise. -/
def hexDigit (c : Char) : Option Nat :=
  if 48 ≤ c.toNat ∧ c.toNat ≤ 57 then some (c.toNat - 48)
  else if 65 ≤ c.toNat ∧ c.toNat ≤ 70 then some (c.toNat - 55)
  else none

/-- Parse a non-empty all-hex character list as a number. -/
def hexNat (cs : List Char) : Option Nat :=
  if cs.isEmpty then none
  else cs.foldl (fun acc c => do
    let a ← acc
    let v ← hexDigit c
    pure (a * 16 + v)) (some 0)

/-- Modelled from the spec: a 4-hex-character date counter of the header;
"a date whose encoded value is the standard's unset sentinel decodes to
absent, not an error" (sentinel `FFFF`). -/
def parseHexDate (cs : List Char) : Except PyErr (Option Nat) :=
  match hexNat cs with
  | none => .error (.malformedHeader "invalid date field")
  | some v => .ok (if v = 65535 then none else some v)

/-- Modelled from the spec: the version-dispatched fixed-width header
parser of `parser/parser.py` (absent from the provided sources).
Layout for version 04 (`DC04`): marker 2, version 2, CA id 4, cert id 4,
issue date 4, signature date 4, document type 2, perimeter 2, country 2 —
26 characters in all. Marker mismatch, unknown version and truncated
input fail with `MalformedHeader`. -/
def parse2DDocHeader (cs : List Char) : Except PyErr Header := do
  if cs.take 2 ≠ ['D', 'C'] then
    throw (.malformedHeader "bad marker")
  let v ← match decNat ((cs.drop 2).take 2) with
    | some v => pure v
    | none => throw (.malformedHeader "bad version")
  if v ≠ 4 then
    throw (.malformedHeader "unknown version")
  if cs.length < 26 then
    throw (.malformedHeader "truncated header")
  let issue ← parseHexDate ((cs.drop 12).take 4)
  let sigd ← parseHexDate ((cs.drop 16).take 4)
  pure { raw := String.mk (cs.take 26),
         marker := "DC",
         version := v,
         ca_id := String.mk ((cs.drop 4).take 4),
         cert_id := String.mk ((cs.drop 8).take 4),
         issue_date := issue,
         signature_date := sigd,
         doc_type := String.mk ((cs.drop 20).take 2),
         perimeter := String.mk ((cs.drop 22).take 2),
         country := String.mk ((cs.drop 24).take 2),
         header_len := 26 }

/-- Modelled from the spec: the field tokenizer splits the field region
on the Group Separator; "each chunk's first two characters are the field
id, the rest is the value"; a chunk shorter than 2 characters, or a
duplicate id, is `MalformedField`. -/
def buildFieldsAux : List (List Char) → Fields → Except PyErr Fields
  | [], acc => .ok acc
  | chunk :: rest, acc =>
    if chunk.length < 2 then
      .error (.malformedField "field chunk shorter than 2 characters")
    else
      let fid := String.mk (chunk.take 2)
      if (aget acc fid).isSome then
        .error (.malformedField ("duplicate field id " ++ fid))
      else
        buildFieldsAux rest (acc ++ [(fid, String.mk (chunk.drop 2))])

/-- Base32 value of one character of the standard upper-case alphabet
(`A`–`Z`, `2`–`7`); invalid characters fail the decode. -/
def b32Digit (c : Char) : Option Nat :=
  if 65 ≤ c.toNat ∧ c.toNat ≤ 90 then some (c.toNat - 65)
  else if 50 ≤ c.toNat ∧ c.toNat ≤ 55 then some (c.toNat - 50 + 26)
  else none

/-- One Base32 character feeding the 5-bit accumulator; a byte is emitted
as soon as 8 bits are available. -/
def b32Step (st : Nat × Nat × List Nat) (v : Nat) : Nat × Nat × List Nat :=
  let acc := st.1 * 32 + v
  let nbits := st.2.1 + 5
  if 8 ≤ nbits then
    (acc % 2 ^ (nbits - 8), nbits - 8, st.2.2 ++ [acc / 2 ^ (nbits - 8)])
  else
    (acc, nbits, st.2.2)

/-- Modelled from the spec: the Signature Codec "Base32-decodes the
signature text (standard uppercase alphabet; invalid characters fail
decode rather than truncate)". Trailing `=` padding is ignored. -/
def base32Decode (cs : List Char) : Option (List Nat) := do
  let body := (cs.reverse.dropWhile (fun c => c = '=')).reverse
  let vals ← body.mapM b32Digit
  pure (vals.foldl b32Step (0, 0, [])).2.2

/-- Curve hint by decoded signature length (`alg_hint` of
`SignatureBlock`: "P-256"/"P-384"/"P-521" if detectable). -/
def algHint (len : Nat) : Option String :=
  if len = 64 then some "P-256"
  else if len = 96 then some "P-384"
  else if len = 132 then some "P-521"
  else none

/-- Modelled from the spec: `parser/parser.py::parse` (absent from the
provided sources). Parses the header, locates the first Unit Separator,
takes everything before it as the Signed Payload, splits the field region
on the Group Separator into id/value pairs, and Base32-decodes the
signature text after the Unit Separator; no Unit Separator means
`SignatureBlock.present = false` and the whole remainder is field data. -/
def parse (data : String) : Except PyErr Decoded2DDoc := do
  let cs := data.data
  let header ← parse2DDocHeader cs
  let rest := cs.drop header.header_len
  let pre := rest.takeWhile (fun c => c ≠ USchar)
  let post := rest.drop pre.length
  let fields ← buildFieldsAux (if pre.isEmpty then [] else pre.splitOn GSchar) []
  let payload := (cs.take (header.header_len + pre.length)).map Char.toNat
  let sig : SignatureBlock ← match post with
    | [] => pure { present := false }
    | _ :: sigChars =>
      match base32Decode sigChars with
      | none => throw (.malformedSignature "invalid Base32 signature")
      | some raw =>
        pure { present := true, b32 := some (String.mk sigChars),
               raw := some raw, alg_hint := algHint raw.length }
  pure { header := header, sign_payload := payload, fields := fields,
         typed := none, signature := sig, is_valid := false, ants_type := none }

/-- The dispatch step of `api.decode_2d_doc` (lines 40–54): look the
document type up in the registry; a hit calls the handler and records the
typed view and display name, a miss builds a `GenericDoc` from the
header fields and the full field map. -/
def dispatchStep (reg : TypeRegistry) (d : Decoded2DDoc) : Except PyErr Decoded2DDoc :=
  match get_handler reg d.header.doc_type with
  | some (h, name) => do
    let t ← h d
    .ok { d with typed := some t, ants_type := some name }
  | none =>
    .ok { d with typed := some (TypedDoc.generic
      { doc_type := d.header.doc_type, perimeter := d.header.perimeter,
        country := d.header.country, fields := d.fields }) }

/-- The verification step of `api.decode_2d_doc` (lines 55–59):
`try: parsed_data.verify(...) except Exception: print(warning)` — any
exception from `verify` is swallowed and the aggregate is returned as it
was; on success the aggregate carries the updated `is_valid`. -/
def tryVerifyStep (kr : KeyResolver) (d : Decoded2DDoc) : Decoded2DDoc :=
  match d.verify kr with
  | .ok d2 => d2
  | .error _ => d

/-- The tail of `api.decode_2d_doc` after parsing and handler loading:
dispatch (whose errors propagate), then the absorbing verification step. -/
def decodeFromParsed (reg : TypeRegistry) (kr : KeyResolver)
    (p : Decoded2DDoc) : Except PyErr Decoded2DDoc := do
  let p2 ← dispatchStep reg p
  .ok (tryVerifyStep kr p2)

/-- `api.decode_2d_doc` — parse, load the handler modules, dispatch,
attempt verification, return the aggregate. -/
def decode_2d_doc (data : String) : Except PyErr Decoded2DDoc := do
  let parsed ← parse data
  let reg ← ensureHandlersLoaded
  decodeFromParsed reg local_key_resolver parsed

/-! ## Helper lemmas -/

theorem aget_ainsert_self {α : Type} (k : String) (v : α) (l : List (String × α)) :
    aget (ainsert k v l) k = some v := by
  induction l with
  | nil => simp [ainsert, aget]
  | cons kv rest ih =>
    obtain ⟨k2, v2⟩ := kv
    by_cases h : k2 = k
    · simp [ainsert, aget, h]
    · simp [ainsert, aget, h, ih]

theorem char_toNat_ofNat_of_lt (n : Nat) (h : n < 55296) :
    (Char.ofNat n).toNat = n := by
  rw [Char.ofNat, dif_pos (Or.inl h)]
  rfl

theorem char_toUpper_toLower (c : Char) : c.toLower.toUpper = c.toUpper := by
  simp only [Char.toLower, Char.toUpper]
  by_cases h : 65 ≤ c.toNat ∧ c.toNat ≤ 90
  · have h32 : (Char.ofNat (c.toNat + 32)).toNat = c.toNat + 32 :=
      char_toNat_ofNat_of_lt _ (by omega)
    rw [if_pos (by omega : c.toNat ≥ 65 ∧ c.toNat ≤ 90), h32]
    rw [if_pos (by omega : c.toNat + 32 ≥ 97 ∧ c.toNat + 32 ≤ 122)]
    rw [if_neg (by omega : ¬(c.toNat ≥ 97 ∧ c.toNat ≤ 122))]
    have e : c.toNat + 32 - 32 = c.toNat := by omega
    rw [e, Char.ofNat_toNat]
  · rw [if_neg (by omega : ¬(c.toNat ≥ 65 ∧ c.toNat ≤ 90))]

theorem char_toUpper_toUpper (c : Char) : c.toUpper.toUpper = c.toUpper := by
  simp only [Char.toUpper]
  by_cases h : 97 ≤ c.toNat ∧ c.toNat ≤ 122
  · have h32 : (Char.ofNat (c.toNat - 32)).toNat = c.toNat - 32 :=
      char_toNat_ofNat_of_lt _ (by omega)
    rw [if_pos (by omega : c.toNat ≥ 97 ∧ c.toNat ≤ 122), h32]
    rw [if_neg (by omega : ¬(c.toNat - 32 ≥ 97 ∧ c.toNat - 32 ≤ 122))]
  · rw [if_neg (by omega : ¬(c.toNat ≥ 97 ∧ c.toNat ≤ 122))]
    rw [if_neg (by omega : ¬(c.toNat ≥ 97 ∧ c.toNat ≤ 122))]

theorem strUpper_strLower (s : String) : strUpper (strLower s) = strUpper s := by
  simp only [strUpper, strLower, List.map_map]
  congr 1
  exact List.map_congr_left (fun a _ => char_toUpper_toLower a)

theorem strUpper_strUpper (s : String) : strUpper (strUpper s) = strUpper s := by
  simp only [strUpper, List.map_map]
  congr 1
  exact List.map_congr_left (fun a _ => char_toUpper_toUpper a)

/-- Helper: a normal return of `Decoded2DDoc.verify` only rewrites the
`is_valid` slot of the aggregate. -/
theorem verify_ok_is_valid_update (d : Decoded2DDoc) (kr : KeyResolver)
    (d2 : Decoded2DDoc) (h : d.verify kr = .ok d2) :
    ∃ b, d2 = { d with is_valid := b } := by
  unfold Decoded2DDoc.verify at h
  revert h
  cases hp : d.signature.present <;> cases hr : d.signature.raw <;> intro h
  · exact absurd h (by simp)
  · exact absurd h (by simp)
  · exact absurd h (by simp)
  · rename_i raw
    revert h
    by_cases he : raw.isEmpty <;> simp only [he, if_true, if_false]
    · intro h; exact absurd h (by simp)
    · cases hres : kr.resolve d.header.ca_id d.header.cert_id with
      | error e => simp [hres, Except.bind, bind]
      | ok pub =>
        cases hv : verify_signature d.sign_payload raw pub with
        | error e => simp [hres, hv, Except.bind, bind]
        | ok b =>
          simp only [hres, hv, bind, Except.bind, pure, Except.pure]
          intro h
          exact ⟨b, by injection h with h2; exact h2.symm⟩

/-- Helper: the try/except verification step of the orchestrator only
rewrites the `is_valid` slot of the aggregate. -/
theorem tryVerifyStep_is_valid_update (kr : KeyResolver) (d : Decoded2DDoc) :
    ∃ b, tryVerifyStep kr d = { d with is_valid := b } := by
  unfold tryVerifyStep
  cases hv : d.verify kr with
  | error e => exact ⟨d.is_valid, rfl⟩
  | ok d2 =>
    obtain ⟨b, hb⟩ := verify_ok_is_valid_update d kr d2 hv
    exact ⟨b, hb⟩

/-- Helper: a normal return of the dispatch step only rewrites the
`typed` and `ants_type` slots of the aggregate. -/
theorem dispatchStep_ok_update (reg : TypeRegistry) (d d2 : Decoded2DDoc)
    (h : dispatchStep reg d = .ok d2) :
    ∃ t a, d2 = { d with typed := some t, ants_type := a } := by
  unfold dispatchStep at h
  revert h
  cases hg : get_handler reg d.header.doc_type with
  | none =>
    intro h
    injection h with h2
    exact ⟨_, d.ants_type, h2.symm⟩
  | some p =>
    obtain ⟨hdl, nm⟩ := p
    cases hc : hdl d with
    | error e => simp [hc, Except.bind, bind]
    | ok t =>
      simp only [hc, bind, Except.bind]
      intro h
      exact ⟨t, some nm, by injection h with h2; exact h2.symm⟩

/-! ## Concrete documents, resolvers and registries used in witnesses -/

/-- A concrete version-04 header of document type 07. -/
def hdr07 : Header :=
  { raw := "DC04FR0300011F2A1F2A0701FR", marker := "DC", version := 4,
    ca_id := "FR03", cert_id := "0001", issue_date := some 7978,
    signature_date := some 7978, doc_type := "07", perimeter := "01",
    country := "FR", header_len := 26 }

/-- The same header with an unregistered document type. -/
def hdrZZ : Header := { hdr07 with doc_type := "ZZ" }

/-- A decoded document of an unregistered type, without signature. -/
def genDoc0 : Decoded2DDoc :=
  { header := hdrZZ, sign_payload := [68, 67], fields := [("10", "HELLO")] }

/-- `genDoc0` after the generic-fallback dispatch. -/
def genDoc0Typed : Decoded2DDoc :=
  { genDoc0 with typed := some (TypedDoc.generic
    { doc_type := genDoc0.header.doc_type, perimeter := genDoc0.header.perimeter,
      country := genDoc0.header.country, fields := genDoc0.fields }) }

/-- A decoded document with a present 64-byte signature. -/
def sigDoc0 : Decoded2DDoc :=
  { header := hdr07, sign_payload := [1, 2, 3],
    signature := { present := true, b32 := some "AAAA",
                   raw := some (List.replicate 64 0), alg_hint := some "P-256" } }

/-- `sigDoc0` with the validity flag set. -/
def sigDoc0Valid : Decoded2DDoc := { sigDoc0 with is_valid := true }

/-- A decoded document without any signature section. -/
def noSigDoc0 : Decoded2DDoc := { header := hdr07, sign_payload := [1] }

/-- A type-07 document whose mandatory field 60 is missing. -/
def doc60Missing : Decoded2DDoc :=
  { header := hdr07, sign_payload := [],
    fields := [("62", "DUPONT"), ("6C", "FRA"), ("67", "FRA"), ("68", "M")] }

/-- The registry holding exactly the type-07 handler. -/
def reg07 : TypeRegistry := TypeRegistry.register ⟨[]⟩ "07" handle_07 "carte_identite"

/-- A resolver whose key accepts every (payload, signature) pair. -/
def resolverOk0 : KeyResolver := ⟨fun _ _ => .ok ⟨fun _ _ => true⟩⟩

/-- A resolver whose key rejects every (payload, signature) pair: its
verification completes and yields the `invalid` outcome. -/
def resolverReject0 : KeyResolver := ⟨fun _ _ => .ok ⟨fun _ _ => false⟩⟩

/-- The spec's concrete scenario input: a version-04 type-07 header,
the chunks `60DUPONT`, `67FRA`, `68M` joined by the Group Separator, a
Unit Separator, and a Base32 signature. -/
def scenarioInput : String :=
  "DC04FR0300011F2A1F2A0701FR" ++ "60DUPONT\x1d67FRA\x1d68M" ++ "\x1f" ++ "AAAAAAAA"

/-! ## Claims -/

/-- Claim C3: for every input string, `decode_2d_doc` raises before
dispatch can occur — loading the per-type handler modules evaluates
`@register("28")` with the mandatory display-name argument missing, so
`_ensure_handlers_loaded` raises `TypeError`, the doc-28 handler is never
registered, and decode never returns normally. -/
theorem C3_decode_always_raises :
    ensureHandlersLoaded =
      .error (PyErr.typeError "register() missing 1 required positional argument: name") ∧
    ∀ data : String, ∃ e : PyErr, decode_2d_doc data = .error e := by
  refine ⟨rfl, fun data => ?_⟩
  cases hp : parse data with
  | error e => exact ⟨e, by unfold decode_2d_doc; rw [hp]; rfl⟩
  | ok p =>
    exact ⟨.typeError "register() missing 1 required positional argument: name",
      by unfold decode_2d_doc; rw [hp]; rfl⟩

/-- Claim C4 (as the code actually behaves): on the spec's concrete
scenario input the parser does produce the expected field map and the
type-07 header, but `decode_2d_doc` aborts with the `TypeError` raised
while importing the doc-28 handler module instead of returning the
aggregate the claim requires. -/
theorem C4_scenario_decode_aborts :
    (parse scenarioInput).map (fun p => (p.fields, p.header.doc_type)) =
      .ok ([("60", "DUPONT"), ("67", "FRA"), ("68", "M")], "07") ∧
    decode_2d_doc scenarioInput =
      .error (PyErr.typeError "register() missing 1 required positional argument: name") :=
  ⟨rfl, rfl⟩

/-- Claim C5: when the header's document type has no registered handler,
the dispatch step of the orchestrator does not fail — it returns the
aggregate with `typed` set to a GenericView whose doc_type, perimeter
and country are the header's fields and whose fields are the full
decoded field map. -/
theorem C5_generic_fallback (reg : TypeRegistry) (d : Decoded2DDoc)
    (hmiss : get_handler reg d.header.doc_type = none) :
    dispatchStep reg d = .ok { d with typed := some (TypedDoc.generic
      { doc_type := d.header.doc_type, perimeter := d.header.perimeter,
        country := d.header.country, fields := d.fields }) } := by
  unfold dispatchStep
  rw [hmiss]

/-- Witness for C5 at a concrete unregistered document type. -/
theorem C5_generic_fallback_witness :
    dispatchStep ⟨[]⟩ genDoc0 = .ok { genDoc0 with typed := some (TypedDoc.generic
      { doc_type := genDoc0.header.doc_type, perimeter := genDoc0.header.perimeter,
        country := genDoc0.header.country, fields := genDoc0.fields }) } :=
  C5_generic_fallback ⟨[]⟩ genDoc0 rfl

/-- Claim C7: calling `verify` on a document whose signature block is not
present raises `ValueError` to the caller, whatever the resolver — no
verification is performed (the outcome does not depend on the resolver),
and nothing like a "verified false" result is produced. -/
theorem C7_verify_without_signature_raises (d : Decoded2DDoc) (kr : KeyResolver)
    (hnp : d.signature.present = false) :
    d.verify kr = .error (.valueError "Pas de signature présente dans ce 2D-DOC.") ∧
    ∀ kr2 : KeyResolver, d.verify kr = d.verify kr2 := by
  have hall : ∀ kr0 : KeyResolver,
      d.verify kr0 = .error (.valueError "Pas de signature présente dans ce 2D-DOC.") := by
    intro kr0
    unfold Decoded2DDoc.verify
    rw [hnp]
  exact ⟨hall kr, fun kr2 => (hall kr).trans (hall kr2).symm⟩

/-- Witness for C7 on a concrete document without a signature. -/
theorem C7_verify_without_signature_raises_witness :
    noSigDoc0.verify local_key_resolver =
      .error (.valueError "Pas de signature présente dans ce 2D-DOC.") :=
  (C7_verify_without_signature_raises noSigDoc0 local_key_resolver rfl).1

/-- Claim C8: handler lookup is case-insensitive — after registering a
handler under a code, looking up the code itself, its upper-cased and
its lower-cased variants all return the handler with its display name;
and on any registry, lookup of a code, of its upper-casing and of its
lower-casing agree. -/
theorem C8_lookup_case_insensitive (reg : TypeRegistry) (c : String)
    (hdl : TypeHandler) (nm : String) :
    get_handler (reg.register c hdl nm) c = some (hdl, nm) ∧
    get_handler (reg.register c hdl nm) (strUpper c) = some (hdl, nm) ∧
    get_handler (reg.register c hdl nm) (strLower c) = some (hdl, nm) ∧
    ∀ (reg2 : TypeRegistry) (code : String),
      get_handler reg2 code = get_handler reg2 (strUpper code) ∧
      get_handler reg2 code = get_handler reg2 (strLower code) := by
  refine ⟨?_, ?_, ?_, fun reg2 code => ⟨?_, ?_⟩⟩
  · exact aget_ainsert_self _ _ _
  · show aget _ (strUpper (strUpper c)) = _
    rw [strUpper_strUpper]
    exact aget_ainsert_self _ _ _
  · show aget _ (strUpper (strLower c)) = _
    rw [strUpper_strLower]
    exact aget_ainsert_self _ _ _
  · show aget _ (strUpper code) = aget _ (strUpper (strUpper code))
    rw [strUpper_strUpper]
  · show aget _ (strUpper code) = aget _ (strUpper (strLower code))
    rw [strUpper_strLower]

/-- Claim C10: a normal return of `Decoded2DDoc.verify` changes nothing
but the validity flag — header, signed payload, fields, signature block,
typed view and display name are those of the input aggregate. -/
theorem C10_verify_writes_only_validity (d : Decoded2DDoc) (kr : KeyResolver)
    (d2 : Decoded2DDoc) (h : d.verify kr = .ok d2) :
    d2.header = d.header ∧ d2.sign_payload = d.sign_payload ∧
    d2.fields = d.fields ∧ d2.signature = d.signature ∧
    d2.typed = d.typed ∧ d2.ants_type = d.ants_type ∧
    ∃ b : Validity, d2 = { d with is_valid := b } := by
  obtain ⟨b, hb⟩ := verify_ok_is_valid_update d kr d2 h
  exact ⟨by rw [hb], by rw [hb], by rw [hb], by rw [hb], by rw [hb], by rw [hb], b, hb⟩

/-- Witness for C10: a successful verification of a concrete document. -/
theorem C10_verify_writes_only_validity_witness :
    sigDoc0Valid.header = sigDoc0.header ∧ sigDoc0Valid.sign_payload = sigDoc0.sign_payload ∧
    sigDoc0Valid.fields = sigDoc0.fields ∧ sigDoc0Valid.signature = sigDoc0.signature ∧
    sigDoc0Valid.typed = sigDoc0.typed ∧ sigDoc0Valid.ants_type = sigDoc0.ants_type ∧
    ∃ b : Validity, sigDoc0Valid = { sigDoc0 with is_valid := b } :=
  C10_verify_writes_only_validity sigDoc0 resolverOk0 sigDoc0Valid rfl

/-- Claim C1 is false of the code: the aggregate carries only the boolean
`is_valid` (default `false`), not a tri-state validity, and no reason is
recorded. Concretely, the decode-time verification step applied to the
same document once with a resolver that fails with `KeyNotFound` (the
claim's `unverified` situation) and once with a resolver whose key
completes verification negatively (the claim's `invalid` situation)
returns the *identical* aggregate — the unverified outcome is not a
distinct value and carries no recorded failure reason. -/
theorem C1_no_tristate_counterexample :
    tryVerifyStep local_key_resolver sigDoc0 = sigDoc0 ∧
    tryVerifyStep resolverReject0 sigDoc0 = sigDoc0 ∧
    tryVerifyStep local_key_resolver sigDoc0 = tryVerifyStep resolverReject0 sigDoc0 ∧
    (tryVerifyStep local_key_resolver sigDoc0).is_valid = false :=
  ⟨rfl, rfl, rfl, rfl⟩

/-- Claim C1 as amended: when the signature cannot be verified (the
resolver fails with `KeyNotFound`, the byte length is unrecognized
yielding `UnsupportedAlgorithm`, or any other verification exception),
the decode-time verification step returns the aggregate completely
unchanged: `is_valid` keeps its prior (default `false`) boolean value —
a value not distinct from the one an invalid signature yields — and the
failure reason is not recorded on the aggregate. -/
theorem C1_unverified_amended (kr : KeyResolver) (d : Decoded2DDoc) (e : PyErr)
    (hfail : d.verify kr = .error e) :
    tryVerifyStep kr d = d ∧ (tryVerifyStep kr d).is_valid = d.is_valid := by
  have h : tryVerifyStep kr d = d := by unfold tryVerifyStep; rw [hfail]
  exact ⟨h, by rw [h]⟩

/-- Witness for the amended C1: a concrete `KeyNotFound` failure. -/
theorem C1_unverified_amended_witness :
    tryVerifyStep local_key_resolver sigDoc0 = sigDoc0 ∧
    (tryVerifyStep local_key_resolver sigDoc0).is_valid = sigDoc0.is_valid :=
  C1_unverified_amended local_key_resolver sigDoc0 (.keyNotFound "FR03" "0001") rfl

/-- Claim C2: once dispatch has produced the typed aggregate, no
exception of the signature-verification step propagates — for every
resolver behaviour (key missing, unsupported algorithm, completed check)
the remaining decode pipeline returns the fully structured aggregate,
with everything but the validity flag exactly as dispatch left it. -/
theorem C2_verification_never_aborts (reg : TypeRegistry) (kr : KeyResolver)
    (p p2 : Decoded2DDoc) (hdisp : dispatchStep reg p = .ok p2) :
    decodeFromParsed reg kr p = .ok (tryVerifyStep kr p2) ∧
    (tryVerifyStep kr p2).header = p2.header ∧
    (tryVerifyStep kr p2).sign_payload = p2.sign_payload ∧
    (tryVerifyStep kr p2).fields = p2.fields ∧
    (tryVerifyStep kr p2).typed = p2.typed ∧
    (tryVerifyStep kr p2).signature = p2.signature ∧
    (tryVerifyStep kr p2).ants_type = p2.ants_type := by
  obtain ⟨b, hb⟩ := tryVerifyStep_is_valid_update kr p2
  refine ⟨?_, by rw [hb], by rw [hb], by rw [hb], by rw [hb], by rw [hb], by rw [hb]⟩
  unfold decodeFromParsed
  rw [hdisp]
  rfl

/-- Witness for C2 with an offline resolver on a dispatched document. -/
theorem C2_verification_never_aborts_witness :
    decodeFromParsed ⟨[]⟩ local_key_resolver genDoc0 =
      .ok (tryVerifyStep local_key_resolver genDoc0Typed) :=
  (C2_verification_never_aborts ⟨[]⟩ local_key_resolver genDoc0 genDoc0Typed rfl).1

/-- Claim C9: the header record is immutable through the pipeline — the
dispatch step, the decode-time verification step, `verify` itself and
the whole post-parse pipeline all return aggregates carrying the very
header of their input, unchanged in every field. -/
theorem C9_header_immutable (reg : TypeRegistry) (kr : KeyResolver)
    (d d2 : Decoded2DDoc) (hdisp : dispatchStep reg d = .ok d2) :
    d2.header = d.header ∧
    (tryVerifyStep kr d).header = d.header ∧
    (∀ d3, d.verify kr = .ok d3 → d3.header = d.header) ∧
    (∀ d4, decodeFromParsed reg kr d = .ok d4 → d4.header = d.header) := by
  obtain ⟨t, a, hta⟩ := dispatchStep_ok_update reg d d2 hdisp
  obtain ⟨b, hb⟩ := tryVerifyStep_is_valid_update kr d
  refine ⟨by rw [hta], by rw [hb], fun d3 h3 => ?_, fun d4 h4 => ?_⟩
  · obtain ⟨b3, hb3⟩ := verify_ok_is_valid_update d kr d3 h3
    rw [hb3]
  · unfold decodeFromParsed at h4
    rw [hdisp] at h4
    have h5 : tryVerifyStep kr d2 = d4 := by
      injection h4 with h5
    obtain ⟨b2, hb2⟩ := tryVerifyStep_is_valid_update kr d2
    rw [← h5, hb2, hta]

/-- Witness for C9 on a concrete dispatched and verified document. -/
theorem C9_header_immutable_witness :
    genDoc0Typed.header = genDoc0.header ∧
    (tryVerifyStep local_key_resolver genDoc0).header = genDoc0.header :=
  ⟨(C9_header_immutable ⟨[]⟩ local_key_resolver genDoc0 genDoc0Typed rfl).1,
   (C9_header_immutable ⟨[]⟩ local_key_resolver genDoc0 genDoc0Typed rfl).2.1⟩

/-- Claim C6: when dispatch reaches a registered handler and that
handler's field validation fails — for document type 07 an empty or
missing mandatory field 60 raises `ValueError` — the failure propagates
out of the dispatch step and aborts the remaining decode pipeline
without producing an aggregate. (The hypotheses on fields 62 and 6C keep
the pydantic construction itself from rejecting first.) -/
theorem C6_validation_error_aborts (reg : TypeRegistry) (d : Decoded2DDoc) (nm : String)
    (hreg : get_handler reg d.header.doc_type = some (handle_07, nm))
    (hdt : d.header.doc_type = "07")
    (h62 : (aget d.fields "62").isSome = true)
    (h6C : (aget d.fields "6C").isSome = true)
    (h60 : pyStrip (agetD d.fields "60" "") = "") :
    dispatchStep reg d = .error (.valueError "La liste des prénoms (60) est obligatoire.") ∧
    ∀ kr : KeyResolver, decodeFromParsed reg kr d =
      .error (.valueError "La liste des prénoms (60) est obligatoire.") := by
  have hfd : CarteIdentite.from_decoded d =
      .error (.valueError "La liste des prénoms (60) est obligatoire.") := by
    obtain ⟨s62, h62s⟩ := Option.isSome_iff_exists.mp h62
    obtain ⟨s6C, h6Cs⟩ := Option.isSome_iff_exists.mp h6C
    unfold CarteIdentite.from_decoded
    rw [hdt]
    simp [CarteIdentite.validate, h62s, h6Cs, h60, bind, Except.bind, pure, Except.pure,
      throw, throwThe, MonadExceptOf.throw]
  have hh : handle_07 d = .error (.valueError "La liste des prénoms (60) est obligatoire.") := by
    unfold handle_07
    rw [hfd]
    rfl
  have hmain : dispatchStep reg d =
      .error (.valueError "La liste des prénoms (60) est obligatoire.") := by
    unfold dispatchStep
    rw [hreg]
    simp [hh, bind, Except.bind]
  exact ⟨hmain, fun kr => by unfold decodeFromParsed; rw [hmain]; rfl⟩

/-- Witness for C6: the type-07 handler rejecting a concrete document
whose mandatory field 60 is missing. -/
theorem C6_validation_error_aborts_witness :
    dispatchStep reg07 doc60Missing =
      .error (.valueError "La liste des prénoms (60) est obligatoire.") :=
  (C6_validation_error_aborts reg07 doc60Missing "carte_identite" rfl rfl rfl rfl rfl).1
